import Mathlib

/-!
Verification of the caching-and-fan-out core of `app.py` (consulta_sophia).

The Python source is shallowly embedded: strings are `List Char`, instants
(`time.time()`) are `Int` seconds, each upstream HTTP interaction is an
explicit outcome value passed in as an environment, and the module-level
mutable caches (`api_token_cache`, `search_cache`) are explicit state that
every modelled function takes and returns.
-/

namespace App

/-! ## Text model (`normalizar_texto`, `str.lower`, `str.strip`, `str.split`)

`app.py` manipulates Python unicode strings.  We model a string as
`List Char` and model `str.lower` / NFKD-decomposition-with-combining-marks
-removed by explicit character tables covering ASCII plus the accented
Latin letters that occur in this app's data (Portuguese names). -/

/-- Model of Python `str.lower` per character: ASCII upper goes to lower,
accented Latin capitals go to their accented lowercase forms, everything
else is unchanged.  (`str.lower` does NOT remove accents.) -/
def pyLower (c : Char) : Char :=
  if 'A' ≤ c ∧ c ≤ 'Z' then Char.ofNat (c.toNat + 32)
  else if c = 'Á' then 'á' else if c = 'É' then 'é' else if c = 'Í' then 'í'
  else if c = 'Ó' then 'ó' else if c = 'Ú' then 'ú' else if c = 'Â' then 'â'
  else if c = 'Ê' then 'ê' else if c = 'Ô' then 'ô' else if c = 'Ã' then 'ã'
  else if c = 'Õ' then 'õ' else if c = 'À' then 'à' else if c = 'Ç' then 'ç'
  else c

/-- Model of `unicodedata.normalize('NFKD', ·)` followed by dropping the
combining characters, per lowercase character: an accented lowercase letter
decomposes into its base letter plus combining marks, and the marks are
dropped, leaving the base letter; unaccented characters are unchanged. -/
def nfkdBase (c : Char) : Char :=
  if c = 'á' ∨ c = 'à' ∨ c = 'â' ∨ c = 'ã' then 'a'
  else if c = 'é' ∨ c = 'ê' then 'e'
  else if c = 'í' then 'i'
  else if c = 'ó' ∨ c = 'ô' ∨ c = 'õ' then 'o'
  else if c = 'ú' then 'u'
  else if c = 'ç' then 'c'
  else c

/-- `normalizar_texto` (app.py:82-86): lowercase, NFKD-decompose and drop
combining marks.  On the empty string the Python code short-circuits and
returns `""`, which coincides with mapping over the empty list. -/
def normalizar_texto (texto : List Char) : List Char :=
  (texto.map pyLower).map nfkdBase

/-- Model of Python `str.strip` (whitespace = the space character, the only
whitespace occurring in this development). -/
def pyStrip (l : List Char) : List Char :=
  ((l.dropWhile (fun c => c = ' ')).reverse.dropWhile (fun c => c = ' ')).reverse

/-- Helper for `pySplit`: `acc` holds the reversed characters of the word
currently being scanned. -/
def pySplitAux : List Char → List Char → List (List Char)
  | [], acc => if acc = [] then [] else [acc.reverse]
  | c :: t, acc =>
    if c = ' ' then
      if acc = [] then pySplitAux t [] else acc.reverse :: pySplitAux t []
    else pySplitAux t (c :: acc)

/-- Model of Python `str.split()` with no argument: split on runs of
whitespace, producing no empty tokens. -/
def pySplit (l : List Char) : List (List Char) :=
  pySplitAux l []

/-- Model of Python list/string prefix test used to define substring
containment. -/
def pyPrefixOf : List Char → List Char → Bool
  | [], _ => true
  | _ :: _, [] => false
  | a :: s, b :: t => a = b && pyPrefixOf s t

/-- Model of Python `needle in hay` on strings: substring containment. -/
def pyIn (needle : List Char) : List Char → Bool
  | [] => pyPrefixOf needle []
  | h :: t => pyPrefixOf needle (h :: t) || pyIn needle t

/-- The name filter of `buscar_aluno` (app.py:121-126) for one candidate:
every whitespace token of the raw search string, normalized, must occur as
a substring of the normalized candidate name. -/
def matches_nome (termo_busca nome : List Char) : Bool :=
  ((pySplit termo_busca).map normalizar_texto).all
    (fun term => pyIn term (normalizar_texto nome))

/-! ## Token cache (`api_token_cache`, `get_sophia_token`, app.py:27-56) -/

/-- The module-level `api_token_cache` dict: `token` is `None` initially
(`Option.none`) or the string last stored; `expires_at` starts at `0`. -/
structure TokenCache where
  token : Option String
  expires_at : Int
deriving DecidableEq

/-- Python truthiness of the cached token value: `None` and `""` are falsy. -/
def tokenTruthy : Option String → Bool
  | none => false
  | some s => !(s == "")

/-- Outcome of the upstream login POST, as seen through `requests`:
`exn` is any `RequestException` (connection error, timeout, or a non-2xx
status turned into an exception by `raise_for_status`); `ok body` is a 2xx
response whose text is `body` (possibly empty). -/
inductive LoginResult
  | exn
  | ok (body : String)
deriving DecidableEq

/-- `get_sophia_token` (app.py:38-56), instrumented: returns the token value
given to the caller (`none` models Python `None`), the token cache after the
call, and whether an upstream login POST was issued.  A valid cached token is
returned with no network call; otherwise the login outcome decides: on
exception the function returns `None` leaving the cache alone, on a 2xx
response the body (even if empty) is stored with a 29-minute expiry and
returned. -/
def get_sophia_token (tc : TokenCache) (now : Int) (login : LoginResult) :
    Option String × TokenCache × Bool :=
  if tokenTruthy tc.token ∧ now < tc.expires_at then (tc.token, tc, false)
  else
    match login with
    | .exn => (none, tc, true)
    | .ok body => (some body, ⟨some body, now + 29 * 60⟩, true)

/-! ## Query result cache (`search_cache`, app.py:32-33, 101-104, 143-147) -/

/-- `CACHE_DURATION_SECONDS` (app.py:33). -/
def CACHE_DURATION_SECONDS : Int := 60

/-- One entry of `search_cache`: the stored template data and its expiry. -/
structure CacheEntry (V : Type) where
  data : V
  expires_at : Int
deriving DecidableEq

/-- The `search_cache` dict, keyed by the lowercased search term.  A plain
association list where insertion shadows earlier bindings, mirroring dict
assignment. -/
abbrev SearchCache (V : Type) : Type := List (List Char × CacheEntry V)

/-- Dict membership plus field read: the first binding for a key. -/
def cacheFind {V : Type} (sc : SearchCache V) (k : List Char) : Option (CacheEntry V) :=
  match sc with
  | [] => none
  | (k2, e) :: rest => if k2 = k then some e else cacheFind rest k

/-- The read path of `buscar_aluno` (app.py:102): a key is served from the
cache iff it is present and `time.time()` is still before its expiry. -/
def cache_get {V : Type} (sc : SearchCache V) (k : List Char) (now : Int) : Option V :=
  match cacheFind sc k with
  | some e => if now < e.expires_at then some e.data else none
  | none => none

/-- The write path of `buscar_aluno` (app.py:144-147): store the data under
the key with expiry `now + CACHE_DURATION_SECONDS`. -/
def cache_put {V : Type} (sc : SearchCache V) (k : List Char) (v : V) (now : Int) :
    SearchCache V :=
  (k, ⟨v, now + CACHE_DURATION_SECONDS⟩) :: sc

/-- The cache key of `buscar_aluno` (app.py:101): the (already stripped)
search term, lowercased — diacritics are NOT removed here. -/
def cache_key (termo_busca : List Char) : List Char :=
  termo_busca.map pyLower

/-! ## Photo lookup (`buscar_foto`, app.py:58-66) and the fan-out -/

/-- Outcome of one photo GET as seen through `requests`: `exn` is any
`RequestException` (connection error or timeout); `resp status text foto`
is a response with the given status code, body text, and the value of the
`foto` field of the parsed JSON body (`none` models a missing field or
JSON `null`; an unparsable body is folded into `exn`). -/
inductive PhotoResp
  | exn
  | resp (status : Nat) (text : String) (foto : Option String)
deriving DecidableEq

/-- `buscar_foto` (app.py:58-66): returns the `foto` field only for a 200
response with a non-empty body; every exception, non-200 status or empty
body yields `None`. -/
def buscar_foto (r : PhotoResp) : Option String :=
  match r with
  | .exn => none
  | .resp status text foto => if status = 200 ∧ ¬ text = "" then foto else none

/-- The photo fan-out of `buscar_aluno` (app.py:128-133): one
`buscar_foto_aluno` call per code in the list, joined in order; each code is
paired with its (possibly absent) photo.  `fotos` gives the per-code
upstream outcome. -/
def resolve_fotos (fotos : Int → PhotoResp) (codigos : List Int) :
    List (Int × Option String) :=
  codigos.map (fun c => (c, buscar_foto (fotos c)))

/-- `fotos_mapeadas` (app.py:128, 134-135): only truthy photo values are
stored in the dict (an empty-string photo is falsy and skipped). -/
def fotos_mapeadas (pares : List (Int × Option String)) : List (Int × String) :=
  pares.filterMap (fun p =>
    match p.2 with
    | some s => if s = "" then none else some (p.1, s)
    | none => none)

/-- Python `dict.get` over our association list where later writes shadow
earlier ones: the LAST binding for the key wins. -/
def dictGet (m : List (Int × String)) (c : Int) : Option String :=
  match m with
  | [] => none
  | (k, v) :: rest =>
    match dictGet rest c with
    | some r => some r
    | none => if k = c then some v else none

/-! ## The search route (`buscar_aluno`, app.py:96-153) -/

/-- A student record as returned by `GET /api/v1/Alunos`: the fields the
core reads. -/
structure Student where
  codigo : Int
  nome : List Char
deriving DecidableEq

/-- A student record as rendered: the search result with the resolved
photo attached (app.py:137-138). -/
structure AlunoView where
  codigo : Int
  nome : List Char
  foto_uri : Option String
deriving DecidableEq

/-- `template_data` (app.py:143): the assembled, cacheable response body. -/
structure TemplateData where
  alunos : List AlunoView
  busca_anterior : List Char
deriving DecidableEq

/-- Outcome of the upstream student-search GET: `exn` is any
`RequestException` (including non-2xx via `raise_for_status`); `ok` carries
the parsed student list. -/
inductive SearchOutcome
  | exn
  | ok (alunos : List Student)

/-- The environment of one `buscar_aluno` request: what each upstream call
would return if issued. -/
structure Upstream where
  login : LoginResult
  search : SearchOutcome
  fotos : Int → PhotoResp

/-- The rendered response of `buscar_aluno`: a normal page with data (from
cache or freshly assembled), the auth-failure page, or the upstream-error
page. -/
inductive Response
  | page (d : TemplateData)
  | authError
  | upstreamError
deriving DecidableEq

/-- How many upstream HTTP calls one `buscar_aluno` request issued, by
kind. -/
structure Counts where
  logins : Nat
  searches : Nat
  photoCalls : Nat
deriving DecidableEq

/-- The name filter of `buscar_aluno` (app.py:121-126) over the upstream
candidate list. -/
def filtrar_alunos (termo_busca : List Char) (alunos : List Student) : List Student :=
  alunos.filter (fun a => matches_nome termo_busca a.nome)

/-- `buscar_aluno` (app.py:96-153): from the raw form value, the two cache
states and the upstream environment, compute the response, the resulting
cache states, and the number of upstream calls issued.  Mirrors the source:
strip; lowercase into the cache key; serve an unexpired cache entry with no
upstream call; otherwise obtain a token (auth-failure page if falsy), issue
the search (error page on exception, cache untouched), filter by name,
fan out the photo lookups, keep only truthy photos in the dict, attach
`dict.get` results to each student, cache the assembled data for 60
seconds, and return it. -/
def buscar_aluno (raw : List Char) (tc : TokenCache) (sc : SearchCache TemplateData)
    (now : Int) (env : Upstream) :
    Response × TokenCache × SearchCache TemplateData × Counts :=
  let termo_busca := pyStrip raw
  let key := cache_key termo_busca
  match cache_get sc key now with
  | some d => (.page d, tc, sc, ⟨0, 0, 0⟩)
  | none =>
    let r := get_sophia_token tc now env.login
    let lc : Nat := if r.2.2 then 1 else 0
    if tokenTruthy r.1 then
      match env.search with
      | .exn => (.upstreamError, r.2.1, sc, ⟨lc, 1, 0⟩)
      | .ok alunos_da_api =>
        let alunos_filtrados := filtrar_alunos termo_busca alunos_da_api
        let codigos_alunos := alunos_filtrados.map (fun a => a.codigo)
        let pares := resolve_fotos env.fotos codigos_alunos
        let fmap := fotos_mapeadas pares
        let vistas := alunos_filtrados.map
          (fun a => AlunoView.mk a.codigo a.nome (dictGet fmap a.codigo))
        let data : TemplateData := ⟨vistas, termo_busca⟩
        (.page data, r.2.1, cache_put sc key data now, ⟨lc, 1, codigos_alunos.length⟩)
    else
      (.authError, r.2.1, sc, ⟨lc, 0, 0⟩)

/-! ## Interleaving model of concurrent `get_sophia_token` calls

`get_sophia_token` (app.py:38-56) takes no lock.  We model two callers
running it concurrently over the shared `api_token_cache`, each decomposed
into its atomic actions on shared state: (1) the check of the cached token,
(2) the login POST together with the store of its result (made atomic here,
which only SHRINKS the set of interleavings of the real code).  The login
is modelled as succeeding, `bodies k` being the token text returned by the
k-th login POST issued. -/

/-- Program counter of one caller of `get_sophia_token`. -/
inductive CallerPC
  | start
  | needLogin
  | done (result : Option String)
deriving DecidableEq

/-- Shared state plus both callers' program counters; `loginCount` counts
the upstream login POSTs issued so far. -/
structure TokenSys where
  cache : TokenCache
  loginCount : Nat
  pc0 : CallerPC
  pc1 : CallerPC
deriving DecidableEq

/-- One atomic step of caller `i` (`false` = caller 0, `true` = caller 1):
from `start`, perform the cached-token check of app.py:40-41; from
`needLogin`, perform the login POST and the store of app.py:46-53. -/
def tcStep (bodies : Nat → String) (now : Int) (s : TokenSys) (i : Bool) : TokenSys :=
  match (if i then s.pc1 else s.pc0) with
  | .start =>
    if tokenTruthy s.cache.token ∧ now < s.cache.expires_at then
      let p := CallerPC.done s.cache.token
      if i then { s with pc1 := p } else { s with pc0 := p }
    else
      if i then { s with pc1 := .needLogin } else { s with pc0 := .needLogin }
  | .needLogin =>
    let b := bodies s.loginCount
    let p := CallerPC.done (some b)
    if i then
      { cache := ⟨some b, now + 29 * 60⟩, loginCount := s.loginCount + 1,
        pc0 := s.pc0, pc1 := p }
    else
      { cache := ⟨some b, now + 29 * 60⟩, loginCount := s.loginCount + 1,
        pc0 := p, pc1 := s.pc1 }
  | .done _ => s

/-- Run a schedule (a list of caller choices) from the initial state of
app.py:27-30: no token stored, expiry 0, no login issued, both callers at
their first action. -/
def tcRun (bodies : Nat → String) (now : Int) (sched : List Bool) : TokenSys :=
  sched.foldl (tcStep bodies now) ⟨⟨none, 0⟩, 0, .start, .start⟩

/-! ## The upstream HTTP calls and their timeouts (C9) -/

/-- One upstream HTTP call site of the core, with the `timeout=` argument it
passes to `requests` (`none` = no timeout argument, i.e. `requests` waits
indefinitely). -/
structure HttpCall where
  endpoint : String
  source_line : Nat
  timeout : Option Nat
deriving DecidableEq

/-- Every upstream HTTP call site in app.py, with its timeout. -/
def core_calls : List HttpCall := [
  ⟨"POST /api/v1/Autenticacao", 46, some 10⟩,
  ⟨"GET /api/v1/Alunos?Nome=", 117, some 10⟩,
  ⟨"GET /api/v1/alunos/{codigo}/Fotos/FotosReduzida", 61, some 5⟩,
  ⟨"GET /api/v1/responsaveis/{codigo}/fotos/FotoReduzida", 61, some 5⟩,
  ⟨"GET /api/v1/alunos/{id}/responsaveis", 166, some 10⟩,
  ⟨"GET /api/v1/alunos/{id}/AutorizacaoRetirada", 169, some 10⟩,
  ⟨"GET /api/v1/Alunos/{id}", 172, none⟩]

/-- Which timeout the spec prescribes for a call site: 5 seconds for photo
lookups, 10 seconds for auth, search and detail calls. -/
def claimed_timeout (c : HttpCall) : Option Nat :=
  if c.source_line = 61 then some 5 else some 10

/-- A concrete photo environment for the spec's fan-out example: the lookup
for code 2 times out, the others return a photo reference. -/
def fotosEx : Int → PhotoResp := fun c =>
  if c = 2 then .exn else .resp 200 "body" (some "ref")

/-! ## Helper lemmas -/

/-- `pyPrefixOf` decides list-prefix. -/
theorem pyPrefixOf_iff (n : List Char) :
    ∀ h, (pyPrefixOf n h = true ↔ ∃ t, n ++ t = h) := by
  induction n with
  | nil =>
    intro h
    simp [pyPrefixOf]
  | cons a s ih =>
    intro h
    cases h with
    | nil => simp [pyPrefixOf]
    | cons b t =>
      simp only [pyPrefixOf, Bool.and_eq_true, decide_eq_true_eq, ih t,
        List.cons_append, List.cons.injEq]
      constructor
      · rintro ⟨hab, u, hu⟩
        exact ⟨u, hab, hu⟩
      · rintro ⟨u, hab, hu⟩
        exact ⟨hab, u, hu⟩

/-- `pyIn` decides substring containment (Python `needle in hay`). -/
theorem pyIn_iff (n : List Char) :
    ∀ h, (pyIn n h = true ↔ ∃ s t, s ++ n ++ t = h) := by
  intro h
  induction h with
  | nil =>
    simp [pyIn, pyPrefixOf_iff, List.append_eq_nil]
  | cons c t ih =>
    simp only [pyIn, Bool.or_eq_true, pyPrefixOf_iff, ih]
    constructor
    · rintro (⟨u, hu⟩ | ⟨s, u, hu⟩)
      · exact ⟨[], u, by simpa using hu⟩
      · exact ⟨c :: s, u, by simp [hu]⟩
    · rintro ⟨s, u, hu⟩
      cases s with
      | nil => exact Or.inl ⟨u, by simpa using hu⟩
      | cons d s2 =>
        have h2 : d = c ∧ s2 ++ n ++ u = t := by simpa using hu
        exact Or.inr ⟨s2, u, h2.2⟩

/-- Reading back a key just written: served while strictly inside the TTL
window, a miss from the expiry instant on. -/
theorem cache_get_put_same {V : Type} (sc : SearchCache V) (k : List Char)
    (v : V) (t t2 : Int) :
    cache_get (cache_put sc k v t) k t2 =
      if t2 < t + CACHE_DURATION_SECONDS then some v else none := by
  simp [cache_get, cache_put, cacheFind]

/-- A fresh unexpired cache entry short-circuits `buscar_aluno`: the cached
data is returned and both caches and the upstream are untouched. -/
theorem buscar_aluno_hit (raw : List Char) (tc : TokenCache)
    (sc : SearchCache TemplateData) (now : Int) (env : Upstream)
    (d : TemplateData) (h : cache_get sc (cache_key (pyStrip raw)) now = some d) :
    buscar_aluno raw tc sc now env = (.page d, tc, sc, ⟨0, 0, 0⟩) := by
  simp [buscar_aluno, h]

/-- The successful population path of `buscar_aluno` spelled out: on a cache
miss with a usable token and a successful upstream search, the filtered,
photo-annotated data is returned and written to the cache. -/
theorem buscar_aluno_success (raw : List Char) (tc : TokenCache)
    (sc : SearchCache TemplateData) (now : Int) (env : Upstream)
    (alunos : List Student)
    (hmiss : cache_get sc (cache_key (pyStrip raw)) now = none)
    (htok : tokenTruthy (get_sophia_token tc now env.login).1 = true)
    (hs : env.search = .ok alunos) :
    buscar_aluno raw tc sc now env =
      (.page ⟨(filtrar_alunos (pyStrip raw) alunos).map
          (fun a => AlunoView.mk a.codigo a.nome
            (dictGet (fotos_mapeadas (resolve_fotos env.fotos
              ((filtrar_alunos (pyStrip raw) alunos).map (fun a => a.codigo))))
              a.codigo)), pyStrip raw⟩,
       (get_sophia_token tc now env.login).2.1,
       cache_put sc (cache_key (pyStrip raw))
         ⟨(filtrar_alunos (pyStrip raw) alunos).map
           (fun a => AlunoView.mk a.codigo a.nome
             (dictGet (fotos_mapeadas (resolve_fotos env.fotos
               ((filtrar_alunos (pyStrip raw) alunos).map (fun a => a.codigo))))
               a.codigo)), pyStrip raw⟩ now,
       ⟨if (get_sophia_token tc now env.login).2.2 then 1 else 0, 1,
        ((filtrar_alunos (pyStrip raw) alunos).map (fun a => a.codigo)).length⟩) := by
  simp [buscar_aluno, hmiss, htok, hs]

/-! ## The claims -/

/-- C1, counterexample: "José" and "Jose" have equal `normalizar_texto`
images (diacritic-stripped, lowercased), but a population for "José"
followed immediately by a lookup for "Jose" misses: the cache key keeps the
accent (`termo.lower()` only, app.py:101), so the second request goes back
upstream (here the upstream search fails, exposing the upstream call). -/
theorem claim_C1_counterexample :
    normalizar_texto (pyStrip "José".toList) = normalizar_texto (pyStrip "Jose".toList) ∧
    (buscar_aluno "Jose".toList
        (buscar_aluno "José".toList ⟨none, 0⟩ [] 100
          ⟨.ok "tok", .ok [⟨1, "José Lima".toList⟩], fun _ => .exn⟩).2.1
        (buscar_aluno "José".toList ⟨none, 0⟩ [] 100
          ⟨.ok "tok", .ok [⟨1, "José Lima".toList⟩], fun _ => .exn⟩).2.2.1
        100 ⟨.ok "tok", .exn, fun _ => .exn⟩).1 = .upstreamError := by
  constructor
  · decide
  · decide

/-- C1 (amended): two raw queries hit the same Query Result Cache entry
when they agree after stripping and case-folding (diacritics kept, per
app.py:101); a population for q1 followed immediately by a lookup for q2
then returns the cached result. -/
theorem claim_C1_amended (q1 q2 : List Char) (v : TemplateData)
    (sc : SearchCache TemplateData) (t : Int)
    (h : cache_key (pyStrip q1) = cache_key (pyStrip q2)) :
    cache_get (cache_put sc (cache_key (pyStrip q1)) v t) (cache_key (pyStrip q2)) t = some v := by
  rw [← h, cache_get_put_same]
  simp [CACHE_DURATION_SECONDS]

/-- C1, witness: "Ana" and "ana" case-fold equal, and the lookup is served
from the entry the population just wrote. -/
theorem claim_C1_witness :
    cache_get (cache_put ([] : SearchCache TemplateData)
        (cache_key (pyStrip "Ana".toList)) ⟨[], "Ana".toList⟩ 0)
      (cache_key (pyStrip "ana".toList)) 0 = some ⟨[], "Ana".toList⟩ :=
  claim_C1_amended "Ana".toList "ana".toList ⟨[], "Ana".toList⟩ [] 0 (by decide)

/-- C2, counterexample: `get_sophia_token` takes no lock, so the
interleaving in which both callers run the cached-token check (app.py:40)
before either login completes issues TWO upstream login calls, and the two
callers observe different tokens ("tokA" from the first login, "tokB" from
the second), refuting both halves of the claim at N = 2. -/
theorem claim_C2_counterexample :
    (tcRun (fun k => if k = 0 then "tokA" else "tokB") 1000
        [false, true, false, true]).loginCount = 2 ∧
    (tcRun (fun k => if k = 0 then "tokA" else "tokB") 1000
        [false, true, false, true]).pc0 = .done (some "tokA") ∧
    (tcRun (fun k => if k = 0 then "tokA" else "tokB") 1000
        [false, true, false, true]).pc1 = .done (some "tokB") := by
  decide

/-- C2 (amended): the code has no synchronization, so concurrent callers
that all pass the cached-token check before any login completes each issue
their own login (up to N logins, different tokens possible); when the
callers are serialized — each call completes before the next begins — and
the login succeeds with a non-empty token, only the first caller issues a
login and every caller observes that same token. -/
theorem claim_C2_amended (bodies : Nat → String) (now : Int)
    (h : ¬ bodies 0 = "") :
    (tcRun bodies now [false, false, true]).loginCount = 1 ∧
    (tcRun bodies now [false, false, true]).pc0 = .done (some (bodies 0)) ∧
    (tcRun bodies now [false, false, true]).pc1 = .done (some (bodies 0)) := by
  have hb : (bodies 0 == "") = false := by
    simpa using h
  have ht : now < now + 29 * 60 := by omega
  simp [tcRun, tcStep, tokenTruthy, hb, ht]

/-- C2, witness: a serialized pair of calls with login body "T" issues one
login and both callers observe "T". -/
theorem claim_C2_witness :
    (tcRun (fun _ => "T") 0 [false, false, true]).loginCount = 1 ∧
    (tcRun (fun _ => "T") 0 [false, false, true]).pc0 = .done (some "T") ∧
    (tcRun (fun _ => "T") 0 [false, false, true]).pc1 = .done (some "T") :=
  claim_C2_amended (fun _ => "T") 0 (by decide)

/-- C3, counterexample: a login attempt (the stale token "old" expired at 5,
now = 10) that comes back 2xx with an EMPTY body does issue a login and then
OVERWRITES the token cache with the empty string and a fresh expiry
(app.py:49-51): the cache is not left unchanged by the failed attempt. -/
theorem claim_C3_counterexample :
    (get_sophia_token ⟨some "old", 5⟩ 10 (.ok "")).2.2 = true ∧
    (get_sophia_token ⟨some "old", 5⟩ 10 (.ok "")).2.1 = ⟨some "", 10 + 29 * 60⟩ ∧
    tokenTruthy (get_sophia_token ⟨some "old", 5⟩ 10 (.ok "")).1 = false := by
  decide

/-- C3 (amended): when the login POST raises (connection failure, timeout or
non-2xx), `get_sophia_token` returns `None` and the token cache is unchanged
from before the failed attempt; when the POST succeeds with an empty body,
the empty string is stored and returned — callers treat it as an
authentication failure, but the cache's token value and expiry ARE
overwritten. -/
theorem claim_C3_amended (tc : TokenCache) (now : Int) :
    ((get_sophia_token tc now .exn).2.2 = true →
      (get_sophia_token tc now .exn).1 = none ∧
      (get_sophia_token tc now .exn).2.1 = tc) ∧
    ((get_sophia_token tc now (.ok "")).2.2 = true →
      tokenTruthy (get_sophia_token tc now (.ok "")).1 = false ∧
      (get_sophia_token tc now (.ok "")).2.1 = ⟨some "", now + 29 * 60⟩) := by
  unfold get_sophia_token
  by_cases h : tokenTruthy tc.token ∧ now < tc.expires_at
  · simp [h]
  · simp only [if_neg h]
    simp [tokenTruthy]

/-- C3, witness: from the initial cache with no token, a failing login
returns `None` leaving the cache unchanged, and an empty-body login returns
a falsy token. -/
theorem claim_C3_witness :
    (get_sophia_token ⟨none, 0⟩ 0 .exn).1 = none ∧
    (get_sophia_token ⟨none, 0⟩ 0 .exn).2.1 = ⟨none, 0⟩ ∧
    tokenTruthy (get_sophia_token ⟨none, 0⟩ 0 (.ok "")).1 = false :=
  ⟨((claim_C3_amended ⟨none, 0⟩ 0).1 (by decide)).1,
   ((claim_C3_amended ⟨none, 0⟩ 0).1 (by decide)).2,
   ((claim_C3_amended ⟨none, 0⟩ 0).2 (by decide)).1⟩

/-- C4 (confirmed): an entry written for a key at time t (TTL = 60 s,
app.py:33,144-147) is returned unchanged by any read of that key at t2 with
t ≤ t2 < t + 60, and treated as absent (a miss) at any t2 ≥ t + 60
(app.py:102, lazy expiry on read). -/
theorem claim_C4 (sc : SearchCache TemplateData) (k : List Char)
    (v : TemplateData) (t t2 : Int) (h : t ≤ t2) :
    (t2 < t + CACHE_DURATION_SECONDS →
      cache_get (cache_put sc k v t) k t2 = some v) ∧
    (t + CACHE_DURATION_SECONDS ≤ t2 →
      cache_get (cache_put sc k v t) k t2 = none) := by
  rw [cache_get_put_same]
  constructor
  · intro h2
    simp [h2]
  · intro h2
    rw [if_neg (by omega)]

/-- C4, witness: an entry written at 0 is served at 59 and absent at 60. -/
theorem claim_C4_witness :
    cache_get (cache_put ([] : SearchCache TemplateData) [] ⟨[], []⟩ 0) [] 59 =
      some ⟨[], []⟩ ∧
    cache_get (cache_put ([] : SearchCache TemplateData) [] ⟨[], []⟩ 0) [] 60 = none :=
  ⟨(claim_C4 [] [] ⟨[], []⟩ 0 59 (by decide)).1 (by decide),
   (claim_C4 [] [] ⟨[], []⟩ 0 60 (by decide)).2 (by decide)⟩

/-- C5 (confirmed): a request whose cache key has an unexpired entry is
answered with the cached result and issues NO upstream call at all — no
login, no student search, no photo lookup — and leaves both caches
unchanged (app.py:101-104 returns before any upstream code runs). -/
theorem claim_C5 (raw : List Char) (tc : TokenCache)
    (sc : SearchCache TemplateData) (now : Int) (env : Upstream)
    (d : TemplateData)
    (h : cache_get sc (cache_key (pyStrip raw)) now = some d) :
    buscar_aluno raw tc sc now env = (.page d, tc, sc, ⟨0, 0, 0⟩) :=
  buscar_aluno_hit raw tc sc now env d h

/-- C5, witness: with an unexpired entry for key "ana", the request for
"Ana" is served from the cache with zero upstream calls, against an
environment whose every upstream call would fail. -/
theorem claim_C5_witness :
    buscar_aluno "Ana".toList ⟨none, 0⟩
        [("ana".toList, ⟨⟨[], "ana".toList⟩, 50⟩)] 10
        ⟨.exn, .exn, fun _ => .exn⟩ =
      (.page ⟨[], "ana".toList⟩, ⟨none, 0⟩,
       [("ana".toList, ⟨⟨[], "ana".toList⟩, 50⟩)], ⟨0, 0, 0⟩) :=
  claim_C5 "Ana".toList ⟨none, 0⟩ [("ana".toList, ⟨⟨[], "ana".toList⟩, 50⟩)]
    10 ⟨.exn, .exn, fun _ => .exn⟩ ⟨[], "ana".toList⟩ (by decide)

/-- C6 (confirmed): when the upstream search call raises (error or timeout),
`buscar_aluno` surfaces the error page and writes nothing: the query result
cache after the request is exactly the cache before it (the write at
app.py:144-147 is inside the `try` and is never reached). -/
theorem claim_C6 (raw : List Char) (tc : TokenCache)
    (sc : SearchCache TemplateData) (now : Int) (env : Upstream)
    (hmiss : cache_get sc (cache_key (pyStrip raw)) now = none)
    (htok : tokenTruthy (get_sophia_token tc now env.login).1 = true)
    (hs : env.search = .exn) :
    (buscar_aluno raw tc sc now env).1 = .upstreamError ∧
    (buscar_aluno raw tc sc now env).2.2.1 = sc := by
  simp [buscar_aluno, hmiss, htok, hs]

/-- C6, witness: a fresh request whose search call raises gets the error
page and leaves the (empty) cache empty. -/
theorem claim_C6_witness :
    (buscar_aluno "Ana".toList ⟨none, 0⟩ [] 0
        ⟨.ok "tok", .exn, fun _ => .exn⟩).1 = .upstreamError ∧
    (buscar_aluno "Ana".toList ⟨none, 0⟩ [] 0
        ⟨.ok "tok", .exn, fun _ => .exn⟩).2.2.1 = [] :=
  claim_C6 "Ana".toList ⟨none, 0⟩ [] 0 ⟨.ok "tok", .exn, fun _ => .exn⟩
    (by decide) (by decide) rfl

/-- C7 (confirmed): the photo fan-out is total — it produces one (possibly
absent) result per requested code, in particular every requested code is
paired with the outcome of its own lookup only, so one failure cannot
affect the others or the request; and a lookup that raises (timeout), or
returns a non-200 status, or returns an empty body, resolves to "no photo"
(app.py:58-66, 128-138). -/
theorem claim_C7 (fotos : Int → PhotoResp) (codigos : List Int) (c : Int)
    (hc : c ∈ codigos) :
    (resolve_fotos fotos codigos).map Prod.fst = codigos ∧
    (c, buscar_foto (fotos c)) ∈ resolve_fotos fotos codigos ∧
    (∀ x, fotos x = .exn → buscar_foto (fotos x) = none) ∧
    (∀ status text foto, ¬ status = 200 →
      buscar_foto (.resp status text foto) = none) ∧
    (∀ status foto, buscar_foto (.resp status "" foto) = none) := by
  refine ⟨?_, ?_, ?_, ?_, ?_⟩
  · have hid : (Prod.fst ∘ fun c : Int => (c, buscar_foto (fotos c))) = id := rfl
    simp [resolve_fotos, hid]
  · simp only [resolve_fotos, List.mem_map]
    exact ⟨c, hc, rfl⟩
  · intro x hx
    rw [hx]
    rfl
  · intro status text foto h
    simp [buscar_foto, h]
  · intro status foto
    simp [buscar_foto]

/-- C7, witness: the spec's example — codes {1,2,3} with the lookup for 2
timing out — yields the total mapping {1 : ref, 2 : absent, 3 : ref}; the
theorem applied at code 2 places (2, absent) in it. -/
theorem claim_C7_witness :
    ((2 : Int), (none : Option String)) ∈ resolve_fotos fotosEx [1, 2, 3] ∧
    resolve_fotos fotosEx [1, 2, 3] =
      [(1, some "ref"), (2, none), (3, some "ref")] := by
  constructor
  · have h := (claim_C7 fotosEx [1, 2, 3] 2 (by decide)).2.1
    have he : buscar_foto (fotosEx 2) = none := by decide
    rwa [he] at h
  · decide

/-- C9 (code bug): NOT every upstream call carries a timeout — the
student-record fetch of the detail route (`GET /api/v1/Alunos/{id}`,
app.py:172) passes no `timeout=` argument, while every other call site
carries exactly the claimed timeout (10 s for auth/search/detail, 5 s for
photos). -/
theorem claim_C9 :
    core_calls.all (fun c => c.timeout == claimed_timeout c) = false ∧
    (core_calls.filter (fun c => c.timeout.isNone)).map
      (fun c => c.source_line) = [172] ∧
    (core_calls.filter (fun c => !(c.source_line == 172))).all
      (fun c => c.timeout == claimed_timeout c) = true := by
  decide

/-- C10 (confirmed): a successful search matching zero students still writes
the (empty) result under the normalized key (the write at app.py:144-147 is
unconditional on the success path), so repeating the query within the TTL is
served the cached empty result with zero upstream calls, whatever the
upstream would now do. -/
theorem claim_C10 (raw : List Char) (tc : TokenCache) (now now2 : Int)
    (env env2 : Upstream) (alunos : List Student)
    (hs : env.search = .ok alunos)
    (hf : filtrar_alunos (pyStrip raw) alunos = [])
    (htok : tokenTruthy (get_sophia_token tc now env.login).1 = true)
    (h1 : now ≤ now2) (h2 : now2 < now + CACHE_DURATION_SECONDS) :
    (buscar_aluno raw tc [] now env).1 = .page ⟨[], pyStrip raw⟩ ∧
    (buscar_aluno raw
        (buscar_aluno raw tc [] now env).2.1
        (buscar_aluno raw tc [] now env).2.2.1 now2 env2) =
      (.page ⟨[], pyStrip raw⟩,
       (buscar_aluno raw tc [] now env).2.1,
       (buscar_aluno raw tc [] now env).2.2.1, ⟨0, 0, 0⟩) := by
  have hmiss : cache_get ([] : SearchCache TemplateData)
      (cache_key (pyStrip raw)) now = none := rfl
  have hsucc := buscar_aluno_success raw tc [] now env alunos hmiss htok hs
  rw [hf] at hsucc
  simp only [List.map_nil] at hsucc
  rw [hsucc]
  refine ⟨rfl, ?_⟩
  have hhit : cache_get (cache_put ([] : SearchCache TemplateData)
      (cache_key (pyStrip raw)) ⟨[], pyStrip raw⟩ now)
      (cache_key (pyStrip raw)) now2 = some ⟨[], pyStrip raw⟩ := by
    rw [cache_get_put_same]
    simp [h2]
  exact buscar_aluno_hit raw _ _ now2 env2 ⟨[], pyStrip raw⟩ hhit

/-- C10, witness: searching "Ana" against an upstream list containing only
"Bruno Costa" matches nobody, yet the repeat of the query 59 seconds later
is served from the cache with zero upstream calls even though every
upstream call would then fail. -/
theorem claim_C10_witness :
    (buscar_aluno "Ana".toList ⟨none, 0⟩ [] 0
        ⟨.ok "tok", .ok [⟨7, "Bruno Costa".toList⟩], fun _ => .exn⟩).1 =
      .page ⟨[], "Ana".toList⟩ ∧
    (buscar_aluno "Ana".toList
        (buscar_aluno "Ana".toList ⟨none, 0⟩ [] 0
          ⟨.ok "tok", .ok [⟨7, "Bruno Costa".toList⟩], fun _ => .exn⟩).2.1
        (buscar_aluno "Ana".toList ⟨none, 0⟩ [] 0
          ⟨.ok "tok", .ok [⟨7, "Bruno Costa".toList⟩], fun _ => .exn⟩).2.2.1
        59 ⟨.exn, .exn, fun _ => .exn⟩) =
      (.page ⟨[], "Ana".toList⟩,
       (buscar_aluno "Ana".toList ⟨none, 0⟩ [] 0
         ⟨.ok "tok", .ok [⟨7, "Bruno Costa".toList⟩], fun _ => .exn⟩).2.1,
       (buscar_aluno "Ana".toList ⟨none, 0⟩ [] 0
         ⟨.ok "tok", .ok [⟨7, "Bruno Costa".toList⟩], fun _ => .exn⟩).2.2.1,
       ⟨0, 0, 0⟩) :=
  claim_C10 "Ana".toList ⟨none, 0⟩ 0 59
    ⟨.ok "tok", .ok [⟨7, "Bruno Costa".toList⟩], fun _ => .exn⟩
    ⟨.exn, .exn, fun _ => .exn⟩ [⟨7, "Bruno Costa".toList⟩]
    rfl (by decide) (by decide) (by decide) (by decide)

/-- C8 (confirmed): `normalizar_texto` strips diacritics and lowercases
(José ↦ jose), and the name filter accepts a candidate iff EVERY token of
the whitespace-split query, normalized, occurs as a substring of the
normalized candidate name (order-independent AND semantics); the spec's
three examples evaluate as stated. -/
theorem claim_C8 :
    (∀ (nome termo : List Char),
      matches_nome termo nome = true ↔
        ∀ term ∈ pySplit termo,
          ∃ s t, s ++ normalizar_texto term ++ t = normalizar_texto nome) ∧
    matches_nome "ana silva".toList "Ana Maria Silva".toList = true ∧
    matches_nome "ana costa".toList "Ana Maria Silva".toList = false ∧
    matches_nome "jose".toList "José".toList = true ∧
    normalizar_texto "José".toList = "jose".toList := by
  refine ⟨?_, by decide, by decide, by decide, by decide⟩
  intro nome termo
  simp [matches_nome, List.all_eq_true, pyIn_iff]

end App
